import Mathlib

/-!
Shallow embedding of the booking / payment core of the salon application:
the booking controller (`createBooking`, `updateBooking`, `checkInBooking`,
`addBookingPayment`), the reminder service (`checkAndSendReminders`,
`sendReminderForBooking`) and the admin bookings page's balance computation
(`RecordPaymentDialog`).

Conventions of the embedding:
* calendar dates are modelled as a day index (the source stores a date at
  UTC midnight); times of day as an hour/minute pair (the source stores them
  on the epoch day via `setHours` / `setMinutes`);
* monetary amounts are rationals (the source uses decimal amounts such as
  `50.00`);
* the Stripe client is modelled by the result of its `retrieve` call
  (`none` models a call that throws) together with a flag saying whether the
  `refunds.create` call succeeds;
* `prisma.$transaction` is modelled as an all-or-nothing state change: an
  aborted transaction leaves the database untouched;
* an injected `txFault` models an unexpected failure of the transaction body
  after the conflict check (the source's catch-all around the transaction);
* status strings of the source (`'booked'`, `'succeeded'`, ...) become
  inductive types; free-form error messages stay strings because the
  controller echoes the thrown message back to the client.
-/

namespace Salon

/-- Booking lifecycle status (the `status` column of `Booking`). -/
inductive BStatus where
  | booked
  | checked_in
  | in_progress
  | completed
  | cancelled
deriving DecidableEq

/-- Payment status (the `status` column of `Payment`). -/
inductive PayStatus where
  | pending
  | succeeded
  | failed
deriving DecidableEq

/-- A `Booking` row, with the columns the booking controller reads or writes. -/
structure Booking where
  id : Nat
  customerId : Nat
  styleId : Option Nat
  categoryId : Nat
  stylistId : Option Nat
  promoId : Option Nat
  bookingDate : Nat
  timeHour : Nat
  timeMinute : Nat
  status : BStatus
deriving DecidableEq

/-- A `Payment` row. -/
structure Payment where
  bookingId : Nat
  amount : ℚ
  stripePaymentId : String
  status : PayStatus
deriving DecidableEq

/-- The transactional relational store seen by the booking controller.
`nextId` models the id generator for newly created rows. -/
structure DB where
  bookings : List Booking
  payments : List Payment
  nextId : Nat
deriving DecidableEq

/-- Result object of `stripe.paymentIntents.retrieve`. -/
structure PaymentIntent where
  status : String
  amount : Int
deriving DecidableEq

/-- The client-visible response of `createBooking`. -/
inductive Response where
  | created (b : Booking)
  | paymentRequired
  | serverError
  | paymentValidationFailed (st : String)
  | invalidCategory
  | invalidStyle
  | conflict (msg : String)
deriving DecidableEq

/-- Everything observable about one run of `createBooking`: the resulting
database, the HTTP response, whether a transaction was opened, whether the
compensating refund was invoked, and whether the critical
refund-failure condition was logged. -/
structure Outcome where
  db : DB
  response : Response
  txOpened : Bool
  refundAttempted : Bool
  criticalAlert : Bool
deriving DecidableEq

/-- The reservation request body (date/time already parsed into the
day-index / hour-minute encoding; the guest flow is abstracted into the
resolved `userId` argument of `createBooking`). -/
structure ReserveReq where
  styleId : Option Nat
  categoryId : Nat
  stylistId : Option Nat
  promoId : Option Nat
  date : Nat
  timeHour : Nat
  timeMinute : Nat
  paymentIntentId : Option String
deriving DecidableEq

/-- Message thrown when a selected stylist already holds the slot. -/
def slotConflictMsg : String := "Selected stylist is no longer available at this time."

/-- Message thrown when the customer already holds the slot. -/
def duplicateMsg : String := "You already have a booking at this time."

/-- Fallback used by `transactionError.message || '...'`. -/
def fallbackMsg : String := "Booking failed. Your payment has been refunded."

/-- The JS expression `m || fallbackMsg`: the empty string is falsy. -/
def respMsg (m : String) : String := if m = "" then fallbackMsg else m

/-- Which of the two conflict messages the transaction throws for a key. -/
def conflictMsg : Option Nat → String
  | some _ => slotConflictMsg
  | none => duplicateMsg

/-- The key-ownership part of the exclusivity predicate: when a stylist is
selected the key is (stylist, date, time); otherwise it is
(customer, date, time). Boolean form, used inside the operations. -/
def keyOwnerB (stylistId : Option Nat) (customerId : Nat) (b : Booking) : Bool :=
  match stylistId with
  | some s => b.stylistId == some s
  | none => b.customerId == customerId

/-- Boolean form of the exclusivity predicate checked inside the reservation
transaction: same key, same date, same time, status not `cancelled`. -/
def blocksB (stylistId : Option Nat) (customerId date th tm : Nat) (b : Booking) : Bool :=
  keyOwnerB stylistId customerId b && (b.bookingDate == date) && (b.timeHour == th)
    && (b.timeMinute == tm) && !(b.status == BStatus.cancelled)

/-- Propositional form of `keyOwnerB`. -/
def holdsKey (stylistId : Option Nat) (customerId : Nat) (b : Booking) : Prop :=
  match stylistId with
  | some s => b.stylistId = some s
  | none => b.customerId = customerId

/-- The `findFirst` conflict query of the reservation transaction: `some msg`
when a non-cancelled booking holds the candidate key. -/
def blockedMsg (bs : List Booking) (stylistId : Option Nat) (customerId date th tm : Nat) :
    Option String :=
  if bs.any (blocksB stylistId customerId date th tm) then some (conflictMsg stylistId)
  else none

/-- Outcome of the catch-branch of the reservation transaction: the refund is
attempted outside the aborted transaction; its failure only raises the
critical alert; the 409 response carries the original abort message. -/
def abortOutcome (db : DB) (refundOk : Bool) (msg : String) : Outcome :=
  ⟨db, Response.conflict (respMsg msg), true, true, !refundOk⟩

/-- The `Booking` row `tx.booking.create` inserts. -/
def mkBooking (db : DB) (userId : Nat) (req : ReserveReq) : Booking :=
  ⟨db.nextId, userId, req.styleId, req.categoryId, req.stylistId, req.promoId,
    req.date, req.timeHour, req.timeMinute, BStatus.booked⟩

/-- The deposit `Payment` row `tx.payment.create` inserts: the amount is the
literal `50.00` with status `'succeeded'`, carrying the payment intent id. -/
def mkDeposit (db : DB) (pid : String) : Payment :=
  ⟨db.nextId, 50, pid, PayStatus.succeeded⟩

/-- The body of `prisma.$transaction` in `createBooking` together with the
catch-branch around it: conflict re-check, then insertion of the `Booking`
row and the deposit `Payment` row in the same atomic unit. `txFault`
injects an unexpected failure of the transaction body. -/
def reserveTx (db : DB) (userId : Nat) (req : ReserveReq) (pid : String)
    (refundOk : Bool) (txFault : Option String) : Outcome :=
  match blockedMsg db.bookings req.stylistId userId req.date req.timeHour req.timeMinute with
  | some msg => abortOutcome db refundOk msg
  | none =>
    match txFault with
    | some msg => abortOutcome db refundOk msg
    | none =>
      ⟨⟨db.bookings ++ [mkBooking db userId req], db.payments ++ [mkDeposit db pid], db.nextId + 1⟩,
        Response.created (mkBooking db userId req), true, false, false⟩

/-- The `findUnique` check on the `style` table, guarded by `if (styleId)`. -/
def styleValid (validStyles : List Nat) : Option Nat → Bool
  | none => true
  | some sid => validStyles.contains sid

/-- The reservation coordinator `createBooking`. `gwRetrieve` is the result
of `stripe.paymentIntents.retrieve` (`none` models a throwing call, which the
outer catch turns into a 500); `validCategories` / `validStyles` model the
`findUnique` reference checks. Note the amount of the retrieved payment
intent is never compared against the expected deposit (the source's
`paymentIntent.amount !== 5000` branch is empty). -/
def createBooking (gwRetrieve : Option PaymentIntent) (refundOk : Bool)
    (txFault : Option String) (validCategories validStyles : List Nat)
    (userId : Nat) (req : ReserveReq) (db : DB) : Outcome :=
  match req.paymentIntentId with
  | none => ⟨db, Response.paymentRequired, false, false, false⟩
  | some pid =>
    match gwRetrieve with
    | none => ⟨db, Response.serverError, false, false, false⟩
    | some intent =>
      if intent.status == "succeeded" then
        if validCategories.contains req.categoryId then
          if styleValid validStyles req.styleId then
            reserveTx db userId req pid refundOk txFault
          else ⟨db, Response.invalidStyle, false, false, false⟩
        else ⟨db, Response.invalidCategory, false, false, false⟩
      else ⟨db, Response.paymentValidationFailed intent.status, false, false, false⟩

/-- The deposit invariant: every `Booking` row has at least one `Payment`
row attached to it. -/
def hasDeposit (db : DB) : Prop :=
  ∀ b ∈ db.bookings, ∃ p ∈ db.payments, p.bookingId = b.id

/-- Stylist selector of the update request: the literal `'unassigned'` or a
stylist id. -/
inductive StylistSel where
  | unassigned
  | pick (id : Nat)
deriving DecidableEq

/-- Body of the admin `updateBooking` request (absent fields are `none`). -/
structure UpdateReq where
  status : Option BStatus
  stylistSel : Option StylistSel
  paymentStatus : Option PayStatus
deriving DecidableEq

/-- Client-visible result of `updateBooking`. -/
inductive UpdateResp where
  | notFound
  | conflict
  | ok (b : Booking)
deriving DecidableEq

/-- The lookup `prisma.booking.findUnique` by booking id. -/
def findBooking (db : DB) (id : Nat) : Option Booking :=
  db.bookings.find? (fun b => b.id == id)

/-- Boolean form of the reassignment conflict query: another booking of the
new stylist at the same date and time, not cancelled, excluding the booking
being updated. -/
def reassignConflictB (bid s date th tm : Nat) (b : Booking) : Bool :=
  (b.stylistId == some s) && (b.bookingDate == date) && (b.timeHour == th)
    && (b.timeMinute == tm) && !(b.status == BStatus.cancelled) && !(b.id == bid)

/-- The writes `updateBooking` performs once past its checks: the optional
`payment.updateMany` for the booking, then `booking.update` with the collected
`data`. -/
def applyUpdate (db : DB) (id : Nat) (b : Booking) (newStatus : BStatus)
    (newStylist : Option Nat) (payStatus : Option PayStatus) : DB × UpdateResp :=
  let payments :=
    match payStatus with
    | some ps => db.payments.map (fun p => if p.bookingId = id then { p with status := ps } else p)
    | none => db.payments
  let updated : Booking := { b with status := newStatus, stylistId := newStylist }
  ⟨⟨db.bookings.map (fun b' => if b'.id = id then updated else b'), payments, db.nextId⟩,
    UpdateResp.ok updated⟩

/-- The admin `updateBooking` controller. The requested status, when present,
is written as-is: the controller contains no state-machine validation. A
stylist reassignment re-runs the exclusivity query against the new
(stylist, date, time) key excluding this booking and fails with 409 when it
hits; `'unassigned'` clears the stylist without any check. -/
def updateBooking (db : DB) (id : Nat) (req : UpdateReq) : DB × UpdateResp :=
  match findBooking db id with
  | none => ⟨db, UpdateResp.notFound⟩
  | some b =>
    let newStatus := req.status.getD b.status
    match req.stylistSel with
    | none => applyUpdate db id b newStatus b.stylistId req.paymentStatus
    | some StylistSel.unassigned => applyUpdate db id b newStatus none req.paymentStatus
    | some (StylistSel.pick s) =>
      if db.bookings.any (reassignConflictB id s b.bookingDate b.timeHour b.timeMinute) then
        ⟨db, UpdateResp.conflict⟩
      else applyUpdate db id b newStatus (some s) req.paymentStatus

/-- Status-transition actions the admin bookings page offers for each
current status (`Start Appointment`, `Mark Complete`, `Cancel`,
`Restore to Booked`); a completed booking only offers the payment dialog. -/
def uiStatusActions : BStatus → List BStatus
  | BStatus.booked => [BStatus.in_progress, BStatus.cancelled]
  | BStatus.checked_in => [BStatus.cancelled]
  | BStatus.in_progress => [BStatus.completed, BStatus.cancelled]
  | BStatus.completed => []
  | BStatus.cancelled => [BStatus.booked]

/-- Client-visible result of `checkInBooking`. -/
inductive CheckInResp where
  | notFound
  | notAuthorized
  | outsideWindow
  | ok (b : Booking)
deriving DecidableEq

/-- Milliseconds of the scheduled instant: the stored date (midnight UTC)
combined with the stored time-of-day's hour and minute, seconds zeroed. -/
def apptMs (b : Booking) : Int :=
  (b.bookingDate : Int) * 86400000 + (b.timeHour : Int) * 3600000 + (b.timeMinute : Int) * 60000

/-- The `checkInBooking` controller: lookup, authorization, then the ±30
minute window on `diffMinutes = (now - appointment) / 60000`, then the status
write. `nowMs` is the current instant in milliseconds. -/
def checkInBooking (db : DB) (id : Nat) (userRole : String) (userId : Nat)
    (nowMs : Int) : DB × CheckInResp :=
  match findBooking db id with
  | none => ⟨db, CheckInResp.notFound⟩
  | some b =>
    if userRole ≠ "admin" ∧ userRole ≠ "stylist" ∧ b.customerId ≠ userId then
      ⟨db, CheckInResp.notAuthorized⟩
    else
      let diffMinutes : ℚ := ((nowMs - apptMs b : Int) : ℚ) / 60000
      if |diffMinutes| > 30 then ⟨db, CheckInResp.outsideWindow⟩
      else
        let updated : Booking := { b with status := BStatus.checked_in }
        ⟨⟨db.bookings.map (fun b' => if b'.id = id then updated else b'), db.payments, db.nextId⟩,
          CheckInResp.ok updated⟩

/-- The booking deposit the admin page treats as already paid. -/
def depositAmount : ℚ := 50

/-- The sum `booking.payments.reduce((sum, p) => sum + Number(p.amount), 0)`. -/
def totalPaid (amounts : List ℚ) : ℚ := amounts.sum

/-- The outstanding balance computed by `RecordPaymentDialog`:
`Math.max(0, (servicePrice + depositAmount) - totalPaid)`. -/
def remainingBalance (servicePrice : ℚ) (amounts : List ℚ) : ℚ :=
  max 0 ((servicePrice + depositAmount) - totalPaid amounts)

/-- Notification channel. -/
inductive Channel where
  | EMAIL
  | SMS
deriving DecidableEq

/-- A row of the notification ledger, with the correlation metadata fields
the reminder dedup query reads (`metadata.bookingId`, `metadata.type`). -/
structure NotificationRecord where
  channel : Channel
  destination : String
  body : String
  subject : Option String
  mBookingId : Option Nat
  mType : Option String
deriving DecidableEq

/-- A `User` row as read by the reminder service. -/
structure Customer where
  id : Nat
  fullName : String
  email : Option String
  phone : Option String
  notificationConsent : Bool
deriving DecidableEq

/-- Modelled from the spec: the source of `notificationQueueService` is not
in the repository; per the spec's NotificationOutbox contract,
`enqueue(channel, destination, body, subject?, correlationMetadata)` durably
appends one NotificationRecord carrying the given correlation metadata to the
append-only ledger. -/
def enqueueNotification (ledger : List NotificationRecord) (channel : Channel)
    (destination body : String) (subject : Option String)
    (mBookingId : Option Nat) (mType : Option String) : List NotificationRecord :=
  ledger ++ [⟨channel, destination, body, subject, mBookingId, mType⟩]

/-- Boolean form of the dedup query: a record whose metadata carries this
booking id and the kind `REMINDER`. -/
def isReminderForB (bid : Nat) (r : NotificationRecord) : Bool :=
  (r.mBookingId == some bid) && (r.mType == some "REMINDER")

/-- Propositional form of `isReminderForB`. -/
def isReminderFor (bid : Nat) (r : NotificationRecord) : Prop :=
  r.mBookingId = some bid ∧ r.mType = some "REMINDER"

/-- The email half of the reminder send: enqueue the email reminder when the
customer has an address, tagged `{ bookingId, type: 'REMINDER' }`. -/
def emailStep (ledger : List NotificationRecord) (c : Customer) (b : Booking) :
    List NotificationRecord :=
  match c.email with
  | some e =>
    enqueueNotification ledger Channel.EMAIL e "reminder email body"
      (some "reminder subject") (some b.id) (some "REMINDER")
  | none => ledger

/-- The job `reminderService.sendReminderForBooking`: skip when the customer is
missing or has withdrawn consent; skip when the ledger already holds a
`REMINDER` record for this booking id; otherwise enqueue an email reminder
(when an address exists) and an SMS reminder (when a phone exists), both
tagged `{ bookingId, type: 'REMINDER' }`. -/
def sendReminderForBooking (customers : List Customer) (ledger : List NotificationRecord)
    (b : Booking) : List NotificationRecord :=
  match customers.find? (fun c => c.id == b.customerId) with
  | none => ledger
  | some c =>
    if c.notificationConsent = false then ledger
    else if ledger.any (isReminderForB b.id) then ledger
    else
      match c.phone with
      | some p =>
        enqueueNotification (emailStep ledger c b) Channel.SMS p "reminder sms body" none
          (some b.id) (some "REMINDER")
      | none => emailStep ledger c b

/-- One iteration of the reminder loop: send only when the booking's hour
matches the current hour. -/
def reminderStep (customers : List Customer) (currentHour : Nat)
    (ledger : List NotificationRecord) (b : Booking) : List NotificationRecord :=
  if b.timeHour == currentHour then sendReminderForBooking customers ledger b else ledger

/-- The job `reminderService.checkAndSendReminders`: select the bookings whose date
is tomorrow and whose status is `'booked'` (note: only `'booked'`, not every
non-cancelled status), then walk them sending reminders for those whose hour
matches the current hour. -/
def checkAndSendReminders (bookings : List Booking) (customers : List Customer)
    (ledger : List NotificationRecord) (today currentHour : Nat) : List NotificationRecord :=
  let tomorrow := today + 1
  let due := bookings.filter (fun b => (b.bookingDate == tomorrow) && (b.status == BStatus.booked))
  due.foldl (reminderStep customers currentHour) ledger

/-! ### Helper lemmas about the reservation coordinator -/

theorem blocksB_iff (stylistId : Option Nat) (customerId date th tm : Nat) (b : Booking) :
    blocksB stylistId customerId date th tm b = true ↔
      holdsKey stylistId customerId b ∧ b.bookingDate = date ∧ b.timeHour = th
        ∧ b.timeMinute = tm ∧ b.status ≠ BStatus.cancelled := by
  cases stylistId <;>
    simp [blocksB, keyOwnerB, holdsKey, Bool.and_eq_true, and_assoc]

theorem respMsg_conflictMsg (stylistId : Option Nat) :
    respMsg (conflictMsg stylistId) = conflictMsg stylistId := by
  cases stylistId with
  | none =>
    show respMsg duplicateMsg = duplicateMsg
    rw [respMsg, if_neg (by decide : ¬duplicateMsg = "")]
  | some s =>
    show respMsg slotConflictMsg = slotConflictMsg
    rw [respMsg, if_neg (by decide : ¬slotConflictMsg = "")]

theorem createBooking_validated (gw : PaymentIntent) (refundOk : Bool)
    (txFault : Option String) (validCategories validStyles : List Nat)
    (userId : Nat) (req : ReserveReq) (db : DB) (pid : String)
    (hpid : req.paymentIntentId = some pid)
    (hst : gw.status = "succeeded")
    (hcat : req.categoryId ∈ validCategories)
    (hsty : styleValid validStyles req.styleId = true) :
    createBooking (some gw) refundOk txFault validCategories validStyles userId req db
      = reserveTx db userId req pid refundOk txFault := by
  simp [createBooking, hpid, hst, hcat, hsty]

theorem reserveTx_blocked (db : DB) (userId : Nat) (req : ReserveReq) (pid : String)
    (refundOk : Bool) (txFault : Option String)
    (h : db.bookings.any (blocksB req.stylistId userId req.date req.timeHour req.timeMinute) = true) :
    reserveTx db userId req pid refundOk txFault
      = abortOutcome db refundOk (conflictMsg req.stylistId) := by
  unfold reserveTx blockedMsg
  rw [if_pos h]

theorem reserveTx_fault (db : DB) (userId : Nat) (req : ReserveReq) (pid msg : String)
    (refundOk : Bool)
    (h : db.bookings.any (blocksB req.stylistId userId req.date req.timeHour req.timeMinute) = false) :
    reserveTx db userId req pid refundOk (some msg) = abortOutcome db refundOk msg := by
  unfold reserveTx blockedMsg
  rw [if_neg (by simp [h])]

theorem reserveTx_free (db : DB) (userId : Nat) (req : ReserveReq) (pid : String)
    (refundOk : Bool)
    (h : db.bookings.any (blocksB req.stylistId userId req.date req.timeHour req.timeMinute) = false) :
    reserveTx db userId req pid refundOk none
      = ⟨⟨db.bookings ++ [mkBooking db userId req], db.payments ++ [mkDeposit db pid],
          db.nextId + 1⟩, Response.created (mkBooking db userId req), true, false, false⟩ := by
  unfold reserveTx blockedMsg
  rw [if_neg (by simp [h])]

theorem blockedMsg_some (bs : List Booking) (stylistId : Option Nat)
    (customerId date th tm : Nat) (msg : String)
    (h : blockedMsg bs stylistId customerId date th tm = some msg) :
    msg = conflictMsg stylistId
      ∧ bs.any (blocksB stylistId customerId date th tm) = true := by
  unfold blockedMsg at h
  by_cases hb : bs.any (blocksB stylistId customerId date th tm) = true
  · rw [if_pos hb] at h
    exact ⟨(Option.some.injEq _ _ ▸ h).symm, hb⟩
  · rw [if_neg hb] at h
    exact absurd h (by simp)

theorem blockedMsg_none (bs : List Booking) (stylistId : Option Nat)
    (customerId date th tm : Nat)
    (h : blockedMsg bs stylistId customerId date th tm = none) :
    bs.any (blocksB stylistId customerId date th tm) = false := by
  unfold blockedMsg at h
  by_cases hb : bs.any (blocksB stylistId customerId date th tm) = true
  · rw [if_pos hb] at h
    exact absurd h (by simp)
  · exact Bool.not_eq_true _ ▸ hb

/-! ### Claim theorems: the reservation coordinator -/

/-- Claim C1: the Booking row and its deposit Payment row are inserted in one
atomic transaction, so the reservation operation preserves the invariant that
a Booking never exists without at least one Payment row for it. -/
theorem createBooking_preserves_deposit_invariant (gwRetrieve : Option PaymentIntent)
    (refundOk : Bool) (txFault : Option String) (validCategories validStyles : List Nat)
    (userId : Nat) (req : ReserveReq) (db : DB)
    (hinv : hasDeposit db) :
    hasDeposit (createBooking gwRetrieve refundOk txFault validCategories validStyles
      userId req db).db := by
  cases hreq : req.paymentIntentId with
  | none => simpa [createBooking, hreq] using hinv
  | some pid =>
    cases gwRetrieve with
    | none => simpa [createBooking, hreq] using hinv
    | some intent =>
      by_cases h1 : (intent.status == "succeeded") = true
      · by_cases h2 : req.categoryId ∈ validCategories
        · by_cases h3 : styleValid validStyles req.styleId = true
          · rw [createBooking_validated intent refundOk txFault validCategories validStyles
              userId req db pid hreq (by simpa using h1) h2 h3]
            by_cases hb : db.bookings.any
                (blocksB req.stylistId userId req.date req.timeHour req.timeMinute) = true
            · rw [reserveTx_blocked db userId req pid refundOk txFault hb]
              exact hinv
            · have hb' := Bool.not_eq_true _ ▸ hb
              cases txFault with
              | some msg =>
                rw [reserveTx_fault db userId req pid msg refundOk hb']
                exact hinv
              | none =>
                rw [reserveTx_free db userId req pid refundOk hb']
                intro b hbm
                rcases List.mem_append.mp hbm with hm | hm
                · obtain ⟨p, hp, hpe⟩ := hinv b hm
                  exact ⟨p, List.mem_append_left _ hp, hpe⟩
                · refine ⟨mkDeposit db pid, List.mem_append_right _ (by simp), ?_⟩
                  have : b = mkBooking db userId req := by simpa using hm
                  simp [this, mkBooking, mkDeposit]
          · simpa [createBooking, hreq, h1, h2, h3] using hinv
        · simpa [createBooking, hreq, h1, h2] using hinv
      · simpa [createBooking, hreq, h1] using hinv

/-- Witness for C1 at a concrete input. -/
theorem createBooking_preserves_deposit_invariant_witness :
    hasDeposit (createBooking (some ⟨"succeeded", 5000⟩) true none [2] [] 10
      ⟨none, 2, none, none, 7, 9, 30, some "pi_1"⟩ ⟨[], [], 1⟩).db :=
  createBooking_preserves_deposit_invariant (some ⟨"succeeded", 5000⟩) true none [2] [] 10
    ⟨none, 2, none, none, 7, 9, 30, some "pi_1"⟩ ⟨[], [], 1⟩ (by intro b hb; cases hb)

/-- Claim C2: whenever the reservation transaction aborts after the payment
was verified captured — a slot conflict or an injected unexpected failure —
the coordinator attempts the refund outside the aborted transaction, the
database is left unchanged, the 409 response carries the original abort
message, the refund's own failure only raises the critical alert, and the
response is identical whether the refund call succeeds or fails. -/
theorem createBooking_abort_refunds (intent : PaymentIntent) (refundOk : Bool)
    (txFault : Option String) (validCategories validStyles : List Nat)
    (userId : Nat) (req : ReserveReq) (db : DB) (pid msg : String)
    (hpid : req.paymentIntentId = some pid)
    (hst : intent.status = "succeeded")
    (hcat : req.categoryId ∈ validCategories)
    (hsty : styleValid validStyles req.styleId = true)
    (habort : blockedMsg db.bookings req.stylistId userId req.date req.timeHour
          req.timeMinute = some msg
        ∨ (blockedMsg db.bookings req.stylistId userId req.date req.timeHour
            req.timeMinute = none ∧ txFault = some msg)) :
    (createBooking (some intent) refundOk txFault validCategories validStyles userId req
        db).refundAttempted = true
    ∧ (createBooking (some intent) refundOk txFault validCategories validStyles userId req
        db).txOpened = true
    ∧ (createBooking (some intent) refundOk txFault validCategories validStyles userId req
        db).db = db
    ∧ (createBooking (some intent) refundOk txFault validCategories validStyles userId req
        db).response = Response.conflict (respMsg msg)
    ∧ (createBooking (some intent) refundOk txFault validCategories validStyles userId req
        db).criticalAlert = !refundOk
    ∧ (createBooking (some intent) true txFault validCategories validStyles userId req
        db).response
      = (createBooking (some intent) false txFault validCategories validStyles userId req
          db).response := by
  have habort' : ∀ rOk : Bool,
      createBooking (some intent) rOk txFault validCategories validStyles userId req db
        = abortOutcome db rOk msg := by
    intro rOk
    rw [createBooking_validated intent rOk txFault validCategories validStyles userId req db
      pid hpid hst hcat hsty]
    rcases habort with hblk | ⟨hfree, hfault⟩
    · obtain ⟨hmsg, hany⟩ := blockedMsg_some _ _ _ _ _ _ _ hblk
      rw [reserveTx_blocked db userId req pid rOk txFault hany, hmsg]
    · rw [hfault, reserveTx_fault db userId req pid msg rOk (blockedMsg_none _ _ _ _ _ _ hfree)]
  rw [habort' refundOk, habort' true, habort' false]
  exact ⟨rfl, rfl, rfl, rfl, rfl, rfl⟩

/-- Witness for C2 at a concrete input: a stylist conflict on an occupied
slot, with a failing refund call. -/
theorem createBooking_abort_refunds_witness :
    (createBooking (some ⟨"succeeded", 5000⟩) false none [2] [] 10
        ⟨none, 2, some 3, none, 7, 9, 30, some "pi_2"⟩
        ⟨[⟨1, 11, none, 2, some 3, none, 7, 9, 30, BStatus.booked⟩], [], 2⟩).refundAttempted
      = true
    ∧ (createBooking (some ⟨"succeeded", 5000⟩) false none [2] [] 10
        ⟨none, 2, some 3, none, 7, 9, 30, some "pi_2"⟩
        ⟨[⟨1, 11, none, 2, some 3, none, 7, 9, 30, BStatus.booked⟩], [], 2⟩).response
      = Response.conflict (respMsg slotConflictMsg) := by
  have h := createBooking_abort_refunds ⟨"succeeded", 5000⟩ false none [2] [] 10
    ⟨none, 2, some 3, none, 7, 9, 30, some "pi_2"⟩
    ⟨[⟨1, 11, none, 2, some 3, none, 7, 9, 30, BStatus.booked⟩], [], 2⟩ "pi_2" slotConflictMsg
    rfl rfl (by decide) (by decide) (Or.inl (by decide))
  exact ⟨h.1, h.2.2.2.1⟩

/-- Claim C3: once the validation steps have passed and no unexpected
transaction failure is injected, the reservation is blocked with the slot
conflict error precisely when a non-cancelled Booking holds the same key —
(stylist, date, time) when a stylist is selected, (customer, date, time)
otherwise; and when every holder of the key is cancelled the reservation
succeeds. -/
theorem createBooking_conflict_iff (intent : PaymentIntent) (refundOk : Bool)
    (validCategories validStyles : List Nat) (userId : Nat) (req : ReserveReq)
    (db : DB) (pid : String)
    (hpid : req.paymentIntentId = some pid)
    (hst : intent.status = "succeeded")
    (hcat : req.categoryId ∈ validCategories)
    (hsty : styleValid validStyles req.styleId = true) :
    ((createBooking (some intent) refundOk none validCategories validStyles userId req
          db).response = Response.conflict (conflictMsg req.stylistId)
      ↔ ∃ b ∈ db.bookings, holdsKey req.stylistId userId b ∧ b.bookingDate = req.date
          ∧ b.timeHour = req.timeHour ∧ b.timeMinute = req.timeMinute
          ∧ b.status ≠ BStatus.cancelled)
    ∧ ((∀ b ∈ db.bookings, holdsKey req.stylistId userId b → b.bookingDate = req.date →
          b.timeHour = req.timeHour → b.timeMinute = req.timeMinute →
          b.status = BStatus.cancelled) →
        (createBooking (some intent) refundOk none validCategories validStyles userId req
            db).response = Response.created (mkBooking db userId req)) := by
  rw [createBooking_validated intent refundOk none validCategories validStyles userId req db
    pid hpid hst hcat hsty]
  by_cases hb : db.bookings.any
      (blocksB req.stylistId userId req.date req.timeHour req.timeMinute) = true
  · rw [reserveTx_blocked db userId req pid refundOk none hb]
    obtain ⟨b, hbm, hbB⟩ := List.any_eq_true.mp hb
    have hbP := (blocksB_iff _ _ _ _ _ _).mp hbB
    constructor
    · constructor
      · intro _
        exact ⟨b, hbm, hbP⟩
      · intro _
        simp [abortOutcome, respMsg_conflictMsg]
    · intro hall
      exact absurd (hall b hbm hbP.1 hbP.2.1 hbP.2.2.1 hbP.2.2.2.1) hbP.2.2.2.2
  · have hb' := Bool.not_eq_true _ ▸ hb
    rw [reserveTx_free db userId req pid refundOk hb']
    constructor
    · constructor
      · intro h
        exact absurd h (by simp)
      · rintro ⟨b, hbm, hbP⟩
        exact absurd (List.any_eq_true.mpr ⟨b, hbm, (blocksB_iff _ _ _ _ _ _).mpr hbP⟩)
          (by simp [hb'])
    · intro _
      rfl

/-- Witness for C3 at a concrete input: the slot's only holder is cancelled,
so re-reserving the identical key succeeds. -/
theorem createBooking_conflict_iff_witness :
    (createBooking (some ⟨"succeeded", 5000⟩) true none [2] [] 10
        ⟨none, 2, some 3, none, 7, 9, 30, some "pi_3"⟩
        ⟨[⟨1, 10, none, 2, some 3, none, 7, 9, 30, BStatus.cancelled⟩], [], 2⟩).response
      = Response.created (mkBooking ⟨[⟨1, 10, none, 2, some 3, none, 7, 9, 30,
          BStatus.cancelled⟩], [], 2⟩ 10 ⟨none, 2, some 3, none, 7, 9, 30, some "pi_3"⟩) := by
  refine (createBooking_conflict_iff ⟨"succeeded", 5000⟩ true [2] [] 10
    ⟨none, 2, some 3, none, 7, 9, 30, some "pi_3"⟩
    ⟨[⟨1, 10, none, 2, some 3, none, 7, 9, 30, BStatus.cancelled⟩], [], 2⟩ "pi_3"
    rfl rfl (by decide) (by decide)).2 ?_
  intro b hb _ _ _ _
  have : b = ⟨1, 10, none, 2, some 3, none, 7, 9, 30, BStatus.cancelled⟩ := by simpa using hb
  rw [this]

/-- Claim C4: when the payment reference does not resolve to a succeeded
payment, the reservation fails before any transaction is opened and no
refund is attempted: a resolved non-succeeded status yields the
payment-validation failure, and a throwing gateway call yields the 500, both
with the database untouched, no transaction and no compensation. -/
theorem createBooking_payment_gate (intent : PaymentIntent) (refundOk : Bool)
    (txFault : Option String) (validCategories validStyles : List Nat)
    (userId : Nat) (req : ReserveReq) (db : DB) (pid : String)
    (hpid : req.paymentIntentId = some pid) :
    (intent.status ≠ "succeeded" →
        createBooking (some intent) refundOk txFault validCategories validStyles userId req db
          = ⟨db, Response.paymentValidationFailed intent.status, false, false, false⟩)
    ∧ createBooking none refundOk txFault validCategories validStyles userId req db
        = ⟨db, Response.serverError, false, false, false⟩ := by
  constructor
  · intro hne
    have hb : (intent.status == "succeeded") = false := by
      simpa using hne
    simp [createBooking, hpid, hb]
  · simp [createBooking, hpid]

/-- Witness for C4 at a concrete input: a payment intent still
`requires_payment_method`. -/
theorem createBooking_payment_gate_witness :
    createBooking (some ⟨"requires_payment_method", 5000⟩) true none [2] [] 10
        ⟨none, 2, none, none, 7, 9, 30, some "pi_4"⟩ ⟨[], [], 1⟩
      = ⟨⟨[], [], 1⟩, Response.paymentValidationFailed "requires_payment_method",
          false, false, false⟩ :=
  (createBooking_payment_gate ⟨"requires_payment_method", 5000⟩ true none [2] [] 10
    ⟨none, 2, none, none, 7, 9, 30, some "pi_4"⟩ ⟨[], [], 1⟩ "pi_4" rfl).1 (by decide)

/-- Claim C10: the reservation outcome is entirely independent of the
captured amount reported by the gateway — no check compares it to the
expected deposit — and every successful reservation records the deposit
Payment with amount exactly 50.00 and status succeeded. -/
theorem createBooking_fixed_deposit (a a' : Int) (refundOk : Bool)
    (txFault : Option String) (validCategories validStyles : List Nat)
    (userId : Nat) (req : ReserveReq) (db : DB) :
    createBooking (some ⟨"succeeded", a⟩) refundOk txFault validCategories validStyles
        userId req db
      = createBooking (some ⟨"succeeded", a'⟩) refundOk txFault validCategories validStyles
          userId req db
    ∧ (∀ pid bk, req.paymentIntentId = some pid →
        (createBooking (some ⟨"succeeded", a⟩) refundOk txFault validCategories validStyles
            userId req db).response = Response.created bk →
        (createBooking (some ⟨"succeeded", a⟩) refundOk txFault validCategories validStyles
            userId req db).db.payments
          = db.payments ++ [⟨bk.id, 50, pid, PayStatus.succeeded⟩]) := by
  constructor
  · rfl
  · intro pid bk hpid hresp
    by_cases hcat : req.categoryId ∈ validCategories
    · by_cases hsty : styleValid validStyles req.styleId = true
      · rw [createBooking_validated ⟨"succeeded", a⟩ refundOk txFault validCategories
          validStyles userId req db pid hpid rfl hcat hsty] at hresp ⊢
        by_cases hb : db.bookings.any
            (blocksB req.stylistId userId req.date req.timeHour req.timeMinute) = true
        · rw [reserveTx_blocked db userId req pid refundOk txFault hb] at hresp
          exact absurd hresp (by simp [abortOutcome])
        · have hb' := Bool.not_eq_true _ ▸ hb
          cases txFault with
          | some msg =>
            rw [reserveTx_fault db userId req pid msg refundOk hb'] at hresp
            exact absurd hresp (by simp [abortOutcome])
          | none =>
            rw [reserveTx_free db userId req pid refundOk hb'] at hresp ⊢
            have hbk : bk = mkBooking db userId req := by
              simpa using hresp.symm
            simp [hbk, mkBooking, mkDeposit]
      · rw [show createBooking (some ⟨"succeeded", a⟩) refundOk txFault validCategories
            validStyles userId req db
            = ⟨db, Response.invalidStyle, false, false, false⟩ by
          simp [createBooking, hpid, hcat, hsty]] at hresp
        exact absurd hresp (by simp)
    · rw [show createBooking (some ⟨"succeeded", a⟩) refundOk txFault validCategories
          validStyles userId req db
          = ⟨db, Response.invalidCategory, false, false, false⟩ by
        simp [createBooking, hpid, hcat]] at hresp
      exact absurd hresp (by simp)

/-- Witness for C10 at a concrete input: the gateway reports a captured
amount of 123 cents, yet the deposit row records 50.00 succeeded. -/
theorem createBooking_fixed_deposit_witness :
    (createBooking (some ⟨"succeeded", 123⟩) true none [2] [] 10
        ⟨none, 2, none, none, 7, 9, 30, some "pi_5"⟩ ⟨[], [], 1⟩).db.payments
      = [] ++ [⟨1, 50, "pi_5", PayStatus.succeeded⟩] := by
  refine (createBooking_fixed_deposit 123 123 true none [2] [] 10
    ⟨none, 2, none, none, 7, 9, 30, some "pi_5"⟩ ⟨[], [], 1⟩).2 "pi_5"
    (mkBooking ⟨[], [], 1⟩ 10 ⟨none, 2, none, none, 7, 9, 30, some "pi_5"⟩) rfl rfl

/-! ### Claim theorems: balance computation -/

/-- Claim C5: the outstanding balance computed by the payment dialog equals
max(0, servicePrice + deposit − sum of recorded payments); it is therefore
always non-negative and non-increasing as (non-negative) payments accumulate,
and the spec's worked examples hold. -/
theorem remainingBalance_spec (servicePrice : ℚ) (amounts : List ℚ) :
    remainingBalance servicePrice amounts = max 0 (servicePrice + 50 - amounts.sum)
    ∧ 0 ≤ remainingBalance servicePrice amounts
    ∧ (∀ p : ℚ, 0 ≤ p →
        remainingBalance servicePrice (amounts ++ [p]) ≤ remainingBalance servicePrice amounts)
    ∧ remainingBalance 80 [50] = 80
    ∧ remainingBalance 80 [50, 80] = 0 := by
  refine ⟨rfl, le_max_left 0 _, fun p hp => ?_, ?_, ?_⟩
  · unfold remainingBalance totalPaid
    have hs : (amounts ++ [p]).sum = amounts.sum + p := by simp
    rw [hs]
    exact max_le_max le_rfl (by linarith)
  · show max 0 (80 + depositAmount - totalPaid [50]) = 80
    rw [depositAmount, totalPaid]
    norm_num
  · show max 0 (80 + depositAmount - totalPaid [50, 80]) = 0
    rw [depositAmount, totalPaid]
    norm_num

/-- Witness for C5 at a concrete input. -/
theorem remainingBalance_spec_witness :
    remainingBalance 80 [50] = 80 ∧ (0 : ℚ) ≤ 5
      ∧ remainingBalance 80 ([50] ++ [5]) ≤ remainingBalance 80 [50] :=
  ⟨(remainingBalance_spec 80 [50]).2.2.2.1, by norm_num,
    (remainingBalance_spec 80 [50]).2.2.1 5 (by norm_num)⟩

/-! ### Claim theorems: status update, assignment, check-in -/

/-- A completed booking used to exercise `updateBooking`. -/
def exBooking7 : Booking := ⟨1, 10, none, 2, none, none, 5, 9, 0, BStatus.completed⟩

/-- A one-booking database holding `exBooking7` and its deposit. -/
def exDB7 : DB := ⟨[exBooking7], [⟨1, 50, "pi_7", PayStatus.succeeded⟩], 2⟩

/-- Claim C7 counterexample: `completed` is not terminal in the code — the
update controller moves a completed booking straight back to `booked` when
asked, because it applies any requested status without transition
validation. -/
theorem updateBooking_completed_not_terminal :
    (updateBooking exDB7 1 ⟨some BStatus.booked, none, none⟩).2
      = UpdateResp.ok { exBooking7 with status := BStatus.booked } := by
  decide

/-- Claim C7 as amended: the backend update controller performs no
state-machine validation at all — whenever the booking exists it writes
exactly the requested status, whatever the current one — while the admin
page's buttons are the only encoding of the state machine, and they offer a
completed booking no transition. -/
theorem updateBooking_status_machine (db : DB) (id : Nat) (st : BStatus) (b : Booking)
    (hfind : findBooking db id = some b) :
    ((updateBooking db id ⟨some st, none, none⟩).2
        = UpdateResp.ok { b with status := st })
    ∧ uiStatusActions BStatus.completed = [] := by
  constructor
  · simp [updateBooking, hfind, applyUpdate]
  · rfl

/-- Witness for the amended C7 at a concrete input. -/
theorem updateBooking_status_machine_witness :
    ((updateBooking exDB7 1 ⟨some BStatus.in_progress, none, none⟩).2
        = UpdateResp.ok { exBooking7 with status := BStatus.in_progress })
    ∧ uiStatusActions BStatus.completed = [] :=
  updateBooking_status_machine exDB7 1 BStatus.in_progress exBooking7 (by decide)

/-- A completed booking with a stylist, to exercise reassignment. -/
def exBooking8 : Booking := ⟨1, 10, none, 2, some 3, none, 5, 9, 0, BStatus.completed⟩

/-- A one-booking database holding `exBooking8`. -/
def exDB8 : DB := ⟨[exBooking8], [], 2⟩

/-- Claim C8 counterexample: the claim's side condition — assignment may only
be changed while the booking is neither cancelled nor completed — does not
hold: the controller reassigns the stylist of a completed booking without
objection. -/
theorem updateBooking_reassign_completed :
    (updateBooking exDB8 1 ⟨none, some (StylistSel.pick 7), none⟩).2
      = UpdateResp.ok { exBooking8 with stylistId := some 7 } := by
  decide

/-- Claim C8 as amended: changing the assigned stylist re-runs the
exclusivity check against the new (stylist, date, time) key excluding the
booking being updated, and fails with the slot conflict exactly when a
non-cancelled conflicting booking exists; the change is permitted for every
current status — there is no cancelled/completed gate. -/
theorem updateBooking_reassign_spec (db : DB) (id s : Nat) (b : Booking)
    (hfind : findBooking db id = some b) :
    ((updateBooking db id ⟨none, some (StylistSel.pick s), none⟩).2 = UpdateResp.conflict
      ↔ ∃ b' ∈ db.bookings, b'.stylistId = some s ∧ b'.bookingDate = b.bookingDate
          ∧ b'.timeHour = b.timeHour ∧ b'.timeMinute = b.timeMinute
          ∧ b'.status ≠ BStatus.cancelled ∧ b'.id ≠ id)
    ∧ (¬(∃ b' ∈ db.bookings, b'.stylistId = some s ∧ b'.bookingDate = b.bookingDate
          ∧ b'.timeHour = b.timeHour ∧ b'.timeMinute = b.timeMinute
          ∧ b'.status ≠ BStatus.cancelled ∧ b'.id ≠ id) →
        (updateBooking db id ⟨none, some (StylistSel.pick s), none⟩).2
          = UpdateResp.ok { b with stylistId := some s }) := by
  have hiff : db.bookings.any (reassignConflictB id s b.bookingDate b.timeHour b.timeMinute)
        = true
      ↔ ∃ b' ∈ db.bookings, b'.stylistId = some s ∧ b'.bookingDate = b.bookingDate
          ∧ b'.timeHour = b.timeHour ∧ b'.timeMinute = b.timeMinute
          ∧ b'.status ≠ BStatus.cancelled ∧ b'.id ≠ id := by
    rw [List.any_eq_true]
    constructor
    · rintro ⟨b', hm, hB⟩
      refine ⟨b', hm, ?_⟩
      simpa [reassignConflictB, and_assoc] using hB
    · rintro ⟨b', hm, hB⟩
      refine ⟨b', hm, ?_⟩
      simpa [reassignConflictB, and_assoc] using hB
  by_cases hc : db.bookings.any (reassignConflictB id s b.bookingDate b.timeHour b.timeMinute)
      = true
  · constructor
    · rw [← hiff]
      constructor
      · intro _
        exact hc
      · intro _
        simp [updateBooking, hfind, hc]
    · intro hno
      exact absurd (hiff.mp hc) hno
  · constructor
    · rw [← hiff]
      constructor
      · intro h
        rw [show (updateBooking db id ⟨none, some (StylistSel.pick s), none⟩).2
            = UpdateResp.ok { b with stylistId := some s } by
          simp [updateBooking, hfind, hc, applyUpdate]] at h
        cases h
      · intro h
        exact absurd h hc
    · intro _
      simp [updateBooking, hfind, hc, applyUpdate]

/-- Witness for the amended C8 at a concrete input: reassigning onto a slot
held by another non-cancelled booking is rejected. -/
theorem updateBooking_reassign_spec_witness :
    ((updateBooking ⟨[⟨1, 10, none, 2, some 3, none, 5, 9, 0, BStatus.booked⟩,
          ⟨2, 11, none, 2, some 7, none, 5, 9, 0, BStatus.booked⟩], [], 3⟩ 1
        ⟨none, some (StylistSel.pick 7), none⟩).2 = UpdateResp.conflict) := by
  refine (updateBooking_reassign_spec ⟨[⟨1, 10, none, 2, some 3, none, 5, 9, 0, BStatus.booked⟩,
      ⟨2, 11, none, 2, some 7, none, 5, 9, 0, BStatus.booked⟩], [], 3⟩ 1 7
      ⟨1, 10, none, 2, some 3, none, 5, 9, 0, BStatus.booked⟩ (by decide)).1.mpr ?_
  exact ⟨⟨2, 11, none, 2, some 7, none, 5, 9, 0, BStatus.booked⟩, by decide, by decide⟩

theorem window_iff (d : Int) : (|((d : ℚ)) / 60000| ≤ 30) ↔ |d| ≤ 1800000 := by
  rw [abs_div, abs_of_pos (show (0 : ℚ) < 60000 by norm_num),
    div_le_iff₀ (show (0 : ℚ) < 60000 by norm_num), ← Int.cast_abs]
  constructor
  · intro h
    exact_mod_cast (by linarith : ((|d| : Int) : ℚ) ≤ 1800000)
  · intro h
    have : ((|d| : Int) : ℚ) ≤ 1800000 := by exact_mod_cast h
    linarith

/-- Claim C9: for an existing booking and an authorized caller, check-in
succeeds exactly when the current instant is within 30 minutes of the
scheduled instant (date combined with time-of-day), and at 31 or more
minutes on either side it fails with the outside-window error. -/
theorem checkIn_window (db : DB) (id : Nat) (userRole : String) (userId : Nat)
    (nowMs : Int) (b : Booking)
    (hfind : findBooking db id = some b)
    (hauth : userRole = "admin" ∨ userRole = "stylist" ∨ b.customerId = userId) :
    (((checkInBooking db id userRole userId nowMs).2
        = CheckInResp.ok { b with status := BStatus.checked_in })
      ↔ |nowMs - apptMs b| ≤ 30 * 60000)
    ∧ (31 * 60000 ≤ |nowMs - apptMs b| →
        (checkInBooking db id userRole userId nowMs).2 = CheckInResp.outsideWindow) := by
  have hauth' : ¬(userRole ≠ "admin" ∧ userRole ≠ "stylist" ∧ b.customerId ≠ userId) := by
    rcases hauth with h | h | h <;> simp [h]
  have hw := window_iff (nowMs - apptMs b)
  constructor
  · by_cases hd : |((nowMs - apptMs b : Int) : ℚ) / 60000| > 30
    · rw [show (checkInBooking db id userRole userId nowMs).2 = CheckInResp.outsideWindow by
        simp only [checkInBooking, hfind]
        rw [if_neg hauth', if_pos hd]]
      constructor
      · intro h
        cases h
      · intro h
        exact absurd (hw.mpr (by linarith [h])) (not_le.mpr hd)
    · rw [show (checkInBooking db id userRole userId nowMs).2
          = CheckInResp.ok { b with status := BStatus.checked_in } by
        simp only [checkInBooking, hfind]
        rw [if_neg hauth', if_neg hd]]
      have : |nowMs - apptMs b| ≤ 1800000 := hw.mp (not_lt.mp hd)
      exact ⟨fun _ => by linarith [this], fun _ => rfl⟩
  · intro h31
    have hgt : |((nowMs - apptMs b : Int) : ℚ) / 60000| > 30 := by
      by_contra hle
      have := hw.mp (not_lt.mp hle)
      linarith [h31]
    simp only [checkInBooking, hfind]
    rw [if_neg hauth', if_pos hgt]

/-- Witness for C9 at concrete inputs: 30 minutes late checks in, on time
checks in, and 31 minutes early is rejected. -/
theorem checkIn_window_witness :
    ((checkInBooking ⟨[⟨1, 10, none, 2, none, none, 0, 9, 0, BStatus.booked⟩], [], 2⟩ 1
        "customer" 10 (9 * 3600000 + 30 * 60000)).2
      = CheckInResp.ok { (⟨1, 10, none, 2, none, none, 0, 9, 0, BStatus.booked⟩ : Booking)
          with status := BStatus.checked_in })
    ∧ ((checkInBooking ⟨[⟨1, 10, none, 2, none, none, 0, 9, 0, BStatus.booked⟩], [], 2⟩ 1
        "customer" 10 (9 * 3600000 - 31 * 60000)).2 = CheckInResp.outsideWindow) := by
  constructor
  · exact (checkIn_window ⟨[⟨1, 10, none, 2, none, none, 0, 9, 0, BStatus.booked⟩], [], 2⟩ 1
      "customer" 10 (9 * 3600000 + 30 * 60000)
      ⟨1, 10, none, 2, none, none, 0, 9, 0, BStatus.booked⟩ (by decide)
      (Or.inr (Or.inr rfl))).1.mpr (by
        rw [show apptMs ⟨1, 10, none, 2, none, none, 0, 9, 0, BStatus.booked⟩
          = 9 * 3600000 from rfl]
        decide)
  · exact (checkIn_window ⟨[⟨1, 10, none, 2, none, none, 0, 9, 0, BStatus.booked⟩], [], 2⟩ 1
      "customer" 10 (9 * 3600000 - 31 * 60000)
      ⟨1, 10, none, 2, none, none, 0, 9, 0, BStatus.booked⟩ (by decide)
      (Or.inr (Or.inr rfl))).2 (by
        rw [show apptMs ⟨1, 10, none, 2, none, none, 0, 9, 0, BStatus.booked⟩
          = 9 * 3600000 from rfl]
        decide)

/-! ### Helper lemmas about the reminder scheduler -/

instance isReminderFor_decidable (bid : Nat) (r : NotificationRecord) :
    Decidable (isReminderFor bid r) := by
  unfold isReminderFor
  infer_instance

theorem isReminderForB_iff (bid : Nat) (r : NotificationRecord) :
    isReminderForB bid r = true ↔ isReminderFor bid r := by
  simp [isReminderForB, isReminderFor]

theorem emailStep_shape (ledger : List NotificationRecord) (c : Customer) (b : Booking) :
    ∃ l', emailStep ledger c b = ledger ++ l' ∧ ∀ r ∈ l', isReminderFor b.id r := by
  unfold emailStep
  cases c.email with
  | none => exact ⟨[], by simp⟩
  | some e =>
    refine ⟨[⟨Channel.EMAIL, e, "reminder email body", some "reminder subject",
      some b.id, some "REMINDER"⟩], rfl, ?_⟩
    intro r hr
    rw [List.mem_singleton.mp hr]
    exact ⟨rfl, rfl⟩

theorem sendReminder_shape (customers : List Customer) (ledger : List NotificationRecord)
    (b : Booking) :
    ∃ l', sendReminderForBooking customers ledger b = ledger ++ l'
      ∧ ∀ r ∈ l', isReminderFor b.id r := by
  rcases hf : customers.find? (fun c => c.id == b.customerId) with _ | c
  · simp only [sendReminderForBooking, hf]
    exact ⟨[], by simp⟩
  · simp only [sendReminderForBooking, hf]
    by_cases hc : c.notificationConsent = false
    · rw [if_pos hc]
      exact ⟨[], by simp⟩
    · rw [if_neg hc]
      by_cases hs : ledger.any (isReminderForB b.id) = true
      · rw [if_pos hs]
        exact ⟨[], by simp⟩
      · rw [if_neg hs]
        obtain ⟨l', hl', hlrem⟩ := emailStep_shape ledger c b
        cases c.phone with
        | none => exact ⟨l', hl', hlrem⟩
        | some p =>
          refine ⟨l' ++ [⟨Channel.SMS, p, "reminder sms body", none, some b.id,
            some "REMINDER"⟩], ?_, ?_⟩
          · unfold enqueueNotification
            rw [hl']
            exact List.append_assoc ledger l' _
          · intro r hr
            rcases List.mem_append.mp hr with h | h
            · exact hlrem r h
            · rw [List.mem_singleton.mp h]
              exact ⟨rfl, rfl⟩

theorem sendReminder_of_sent (customers : List Customer) (ledger : List NotificationRecord)
    (b : Booking) (h : ledger.any (isReminderForB b.id) = true) :
    sendReminderForBooking customers ledger b = ledger := by
  rcases hf : customers.find? (fun c => c.id == b.customerId) with _ | c
  · simp only [sendReminderForBooking, hf]
  · simp only [sendReminderForBooking, hf]
    by_cases hc : c.notificationConsent = false
    · rw [if_pos hc]
    · rw [if_neg hc, if_pos h]

theorem sendReminder_emits (customers : List Customer) (ledger : List NotificationRecord)
    (b : Booking) (c : Customer)
    (hf : customers.find? (fun c' => c'.id == b.customerId) = some c)
    (hcons : c.notificationConsent = true)
    (hch : c.email ≠ none ∨ c.phone ≠ none) :
    ∃ r ∈ sendReminderForBooking customers ledger b, isReminderFor b.id r := by
  simp only [sendReminderForBooking, hf]
  have hc : ¬(c.notificationConsent = false) := by simp [hcons]
  rw [if_neg hc]
  by_cases hs : ledger.any (isReminderForB b.id) = true
  · rw [if_pos hs]
    obtain ⟨r, hr, hrr⟩ := List.any_eq_true.mp hs
    exact ⟨r, hr, (isReminderForB_iff _ _).mp hrr⟩
  · rw [if_neg hs]
    cases hp : c.phone with
    | some p =>
      refine ⟨⟨Channel.SMS, p, "reminder sms body", none, some b.id, some "REMINDER"⟩,
        ?_, rfl, rfl⟩
      unfold enqueueNotification
      exact List.mem_append_right _ (List.mem_singleton.mpr rfl)
    | none =>
      cases he : c.email with
      | some e =>
        refine ⟨⟨Channel.EMAIL, e, "reminder email body", some "reminder subject",
          some b.id, some "REMINDER"⟩, ?_, rfl, rfl⟩
        simp only [emailStep, he]
        unfold enqueueNotification
        exact List.mem_append_right _ (List.mem_singleton.mpr rfl)
      | none =>
        exact absurd hch (by simp [he, hp])

theorem reminderStep_shape (customers : List Customer) (hh : Nat)
    (ledger : List NotificationRecord) (b : Booking) :
    ∃ l', reminderStep customers hh ledger b = ledger ++ l'
      ∧ ∀ r ∈ l', isReminderFor b.id r := by
  unfold reminderStep
  by_cases hhb : (b.timeHour == hh) = true
  · rw [if_pos hhb]
    exact sendReminder_shape customers ledger b
  · rw [if_neg hhb]
    exact ⟨[], by simp⟩

theorem reminderStep_of_sent (customers : List Customer) (hh : Nat)
    (ledger : List NotificationRecord) (b : Booking)
    (h : ∃ r ∈ ledger, isReminderFor b.id r) :
    reminderStep customers hh ledger b = ledger := by
  unfold reminderStep
  by_cases hhb : (b.timeHour == hh) = true
  · rw [if_pos hhb]
    apply sendReminder_of_sent
    rw [List.any_eq_true]
    obtain ⟨r, hr, hrr⟩ := h
    exact ⟨r, hr, (isReminderForB_iff _ _).mpr hrr⟩
  · rw [if_neg hhb]

theorem foldl_reminder_mono (customers : List Customer) (hh : Nat) :
    ∀ (bs : List Booking) (ledger : List NotificationRecord) (r : NotificationRecord),
      r ∈ ledger → r ∈ bs.foldl (reminderStep customers hh) ledger := by
  intro bs
  induction bs with
  | nil =>
    intro l r h
    simpa using h
  | cons a as ih =>
    intro l r h
    rw [List.foldl_cons]
    obtain ⟨l', hl', _⟩ := reminderStep_shape customers hh l a
    exact ih _ r (hl' ▸ List.mem_append_left _ h)

theorem foldl_reminder_no_new (customers : List Customer) (hh x : Nat) :
    ∀ (bs : List Booking) (ledger : List NotificationRecord),
      (∃ r0 ∈ ledger, isReminderFor x r0) →
      ∀ r ∈ bs.foldl (reminderStep customers hh) ledger,
        r ∈ ledger ∨ ¬ isReminderFor x r := by
  intro bs
  induction bs with
  | nil =>
    intro l _ r hr
    left
    simpa using hr
  | cons a as ih =>
    intro l hex r hr
    rw [List.foldl_cons] at hr
    by_cases hax : a.id = x
    · rw [reminderStep_of_sent customers hh l a (by rw [hax]; exact hex)] at hr
      exact ih l hex r hr
    · obtain ⟨l', hl', hlrem⟩ := reminderStep_shape customers hh l a
      have hex' : ∃ r0 ∈ reminderStep customers hh l a, isReminderFor x r0 := by
        obtain ⟨r0, h0, h00⟩ := hex
        exact ⟨r0, hl' ▸ List.mem_append_left _ h0, h00⟩
      rcases ih _ hex' r hr with h | h
      · rw [hl'] at h
        rcases List.mem_append.mp h with h' | h'
        · exact Or.inl h'
        · right
          intro hxr
          exact hax (Option.some_inj.mp ((hlrem r h').1.symm.trans hxr.1))
      · exact Or.inr h

theorem foldl_reminder_emits (customers : List Customer) (hh : Nat) (c : Customer)
    (hcons : c.notificationConsent = true) (hch : c.email ≠ none ∨ c.phone ≠ none) :
    ∀ (bs : List Booking) (b : Booking), b ∈ bs → b.timeHour = hh →
      customers.find? (fun c' => c'.id == b.customerId) = some c →
      ∀ ledger : List NotificationRecord,
        ∃ r ∈ bs.foldl (reminderStep customers hh) ledger, isReminderFor b.id r := by
  intro bs
  induction bs with
  | nil =>
    intro b hb
    cases hb
  | cons a as ih =>
    intro b hb hhb hf l
    rw [List.foldl_cons]
    rcases List.mem_cons.mp hb with rfl | hmem
    · rw [show reminderStep customers hh l b = sendReminderForBooking customers l b by
        unfold reminderStep
        rw [if_pos (by simp [hhb])]]
      obtain ⟨r, hr, hrr⟩ := sendReminder_emits customers l b c hf hcons hch
      exact ⟨r, foldl_reminder_mono customers hh as _ r hr, hrr⟩
    · exact ih b hmem hhb hf _

/-! ### Claim theorems: the reminder scheduler -/

/-- A consenting customer with an email address. -/
def exCustConsenting : Customer := ⟨10, "Ada", some "ada@example.com", none, true⟩

/-- A customer who has declined notifications. -/
def exCustDeclined : Customer := ⟨11, "Bea", some "bea@example.com", none, false⟩

/-- A non-cancelled (checked-in) booking scheduled tomorrow at the current
hour, owned by the consenting customer. -/
def exBookingCheckedIn : Booking := ⟨1, 10, none, 2, none, none, 1, 10, 0, BStatus.checked_in⟩

/-- A booked booking scheduled tomorrow at the current hour, owned by the
declining customer. -/
def exBookingDeclined : Booking := ⟨2, 11, none, 2, none, none, 1, 10, 0, BStatus.booked⟩

/-- Claim C6 counterexample: the scheduler does not emit a reminder for every
non-cancelled matching booking. Against an empty ledger, a run at day 0,
hour 10 over a `checked_in` booking (non-cancelled, due tomorrow at the
current hour, consenting customer with an email address) and a `booked`
booking whose customer declined notifications emits nothing at all: the
query filters on status `'booked'` — not status ≠ `cancelled` — and skips
customers without consent. -/
theorem checkAndSendReminders_counterexample :
    checkAndSendReminders [exBookingCheckedIn, exBookingDeclined]
      [exCustConsenting, exCustDeclined] [] 0 10 = [] := by
  decide

/-- A booked booking of the consenting customer, due tomorrow at hour 10. -/
def exBookingBooked : Booking := ⟨1, 10, none, 2, none, none, 1, 10, 0, BStatus.booked⟩

/-- A second booked booking, same slot, owned by customer 11. -/
def exBookingBooked2 : Booking := ⟨2, 11, none, 2, none, none, 1, 10, 0, BStatus.booked⟩

/-- A consenting variant of customer 11. -/
def exCustConsenting2 : Customer := ⟨11, "Bea", some "bea@example.com", none, true⟩

/-- A `REMINDER` ledger record correlated with booking 1. -/
def exReminderRec : NotificationRecord :=
  ⟨Channel.EMAIL, "ada@example.com", "reminder email body", some "reminder subject",
    some 1, some "REMINDER"⟩

/-- Claim C6 as amended: on a scheduler run, every booking with status
`booked` (not: every non-cancelled booking) whose date is exactly one day
ahead and whose hour matches the current hour gets a `REMINDER`-tagged
record emitted for it, provided its customer is found, consents, and has a
contact channel; and once the ledger holds a `REMINDER` record for a booking
id, a run adds no further `REMINDER` record for that booking id — the dedup
query on the correlation metadata (booking id, kind REMINDER) suppresses the
resend across repeated runs. -/
theorem checkAndSendReminders_spec (bookings : List Booking) (customers : List Customer)
    (ledger : List NotificationRecord) (today currentHour x : Nat) :
    ((∃ r0 ∈ ledger, isReminderFor x r0) →
      ∀ r ∈ checkAndSendReminders bookings customers ledger today currentHour,
        r ∈ ledger ∨ ¬ isReminderFor x r)
    ∧ (∀ b ∈ bookings, b.bookingDate = today + 1 → b.status = BStatus.booked →
        b.timeHour = currentHour → ∀ c,
          customers.find? (fun c' => c'.id == b.customerId) = some c →
          c.notificationConsent = true → (c.email ≠ none ∨ c.phone ≠ none) →
          ∃ r ∈ checkAndSendReminders bookings customers ledger today currentHour,
            isReminderFor b.id r) := by
  constructor
  · intro hex r hr
    simp only [checkAndSendReminders] at hr
    exact foldl_reminder_no_new customers currentHour x _ ledger hex r hr
  · intro b hb hdate hstatus hhour c hf hcons hch
    simp only [checkAndSendReminders]
    refine foldl_reminder_emits customers currentHour c hcons hch _ b ?_ hhour hf ledger
    exact List.mem_filter.mpr ⟨hb, by simp [hdate, hstatus]⟩

/-- Witness for the amended C6 at a concrete input: booking 1 already has a
`REMINDER` record, so the run adds none for it; booking 2 has none yet and
receives one. -/
theorem checkAndSendReminders_spec_witness :
    (∀ r ∈ checkAndSendReminders [exBookingBooked, exBookingBooked2]
        [exCustConsenting, exCustConsenting2] [exReminderRec] 0 10,
      r ∈ [exReminderRec] ∨ ¬ isReminderFor 1 r)
    ∧ ∃ r ∈ checkAndSendReminders [exBookingBooked, exBookingBooked2]
        [exCustConsenting, exCustConsenting2] [exReminderRec] 0 10,
      isReminderFor 2 r := by
  constructor
  · exact (checkAndSendReminders_spec [exBookingBooked, exBookingBooked2]
      [exCustConsenting, exCustConsenting2] [exReminderRec] 0 10 1).1
      ⟨exReminderRec, by simp, rfl, rfl⟩
  · exact (checkAndSendReminders_spec [exBookingBooked, exBookingBooked2]
      [exCustConsenting, exCustConsenting2] [exReminderRec] 0 10 2).2
      exBookingBooked2 (by simp) rfl rfl rfl exCustConsenting2 (by decide) rfl (by decide)

end Salon
